/- Verification development for the Arogo telemedicine backend.

   Shallow embedding of the pure/algorithmic parts of:
     backend/app/utils/response_validator.py   (AIResponseValidator)
     backend/app/utils/symptom_analyzer.py     (SymptomAnalyzer)
     backend/app/utils/consultation_helpers.py (recommendation generators)
     backend/app/services/chat_service.py      (ChatService prompt branching
                                                and response assembly)
     backend/app/main.py                       (first ConnectionManager class)

   Python dicts with fixed key sets are embedded as Lean structures; a key
   holding Python None is embedded as an Option field holding none.  Python
   floats are embedded as rationals (all arithmetic in the embedded code is
   sums, divisions and comparisons, which floats perform exactly on the small
   integer inputs exercised here).  Python exceptions are embedded as Except
   or by returning the value the enclosing try/except converts them to.
-/
import Mathlib

set_option maxRecDepth 4000

namespace Arogo

/-! ## String primitives

Models of the Python string / `re` operations used by the repository.  The
regexes in `response_validator.py` are alternations of literal words plus two
bracketed-tag patterns, so they are embedded as explicit scanners over
lowercased character lists (`re.IGNORECASE` is passed at every `re.search`
call site in `validate_response`). -/

/-- Lowercased character list of a string (model of `str.lower()` restricted
to the ASCII range that all embedded patterns use). -/
def lowerChars (s : String) : List Char :=
  s.data.map Char.toLower

/-- The needle is a prefix of the hay (character-exact). -/
def isPrefixOfL : List Char → List Char → Bool
  | [], _ => true
  | _ :: _, [] => false
  | a :: as, b :: bs => a == b && isPrefixOfL as bs

/-- The needle occurs contiguously somewhere in the hay (model of Python
`needle in hay` and of `re.search` for a literal word). -/
def containsSubL : List Char → List Char → Bool
  | [], needle => needle.isEmpty
  | h :: t, needle => isPrefixOfL needle (h :: t) || containsSubL t needle

/-- Case-insensitive substring test on strings. -/
def containsCI (hay needle : String) : Bool :=
  containsSubL (lowerChars hay) (lowerChars needle)

/-- Some position of the list (including the empty suffix) satisfies `p`. -/
def scanAny (p : List Char → Bool) : List Char → Bool
  | [] => p []
  | c :: t => p (c :: t) || scanAny p t

/-- Drop leading whitespace (model of the regex class `\s*`). -/
def skipWsL : List Char → List Char
  | [] => []
  | c :: t => if c.isWhitespace then skipWsL t else c :: t

/-- After consuming zero or more further digits, `suffix` follows
immediately. -/
def restDigitsThen (suffix : List Char) : List Char → Bool
  | [] => isPrefixOfL suffix []
  | c :: t => if c.isDigit then restDigitsThen suffix t else isPrefixOfL suffix (c :: t)

/-- At least one digit, then `suffix` (model of `\d+` followed by a literal;
the literal begins with a non-digit, so greedy matching is exact). -/
def digits1Then (suffix : List Char) : List Char → Bool
  | [] => false
  | c :: t => c.isDigit && restDigitsThen suffix t

/-! ## AIResponseValidator (backend/app/utils/response_validator.py) -/

/-- Alternation regex `symptom|pain|discomfort|feeling|condition`. -/
def symptomWords : List String :=
  ["symptom", "pain", "discomfort", "feeling", "condition"]

/-- Alternation regex `emergency|immediate|urgent|serious|severe`. -/
def emergencyWords : List String :=
  ["emergency", "immediate", "urgent", "serious", "severe"]

/-- Case-insensitive search for any word of the alternation. -/
def matchesAlt (words : List String) (r : String) : Bool :=
  words.any (fun w => containsCI r w)

/-- Scanner at one position for the confidence-tag regex: the literal
opening, then `\s*`, then `\d+`, then the closing literal.  Inputs are
pre-lowercased, matching `re.IGNORECASE`. -/
def confTagFrom (l : List Char) : Bool :=
  isPrefixOfL "[confidence:".data l &&
    digits1Then "%]".data (skipWsL (l.drop "[confidence:".data.length))

/-- Model of `re.search(r'\[Confidence:\s*(\d+)%\]', r, re.IGNORECASE)`
returning a match. -/
def hasConfTag (r : String) : Bool :=
  scanAny confTagFrom (lowerChars r)

/-- Scanner helper for `.*?\]` without `re.DOTALL`: a closing bracket occurs
before any newline. -/
def closeBracketNoNl : List Char → Bool
  | [] => false
  | c :: t => if c == ']' then true else if c == '\n' then false else closeBracketNoNl t

/-- Scanner at one position for the recommendation-tag regex. -/
def recTagFrom (l : List Char) : Bool :=
  isPrefixOfL "[recommendation:".data l &&
    closeBracketNoNl (l.drop "[recommendation:".data.length)

/-- Model of `re.search(r'\[Recommendation:.*?\]', r, re.IGNORECASE)`
returning a match. -/
def hasRecTag (r : String) : Bool :=
  scanAny recTagFrom (lowerChars r)

/-- Keys of `AIResponseValidator.required_patterns`, in dict insertion order
(the order `validate_response` iterates them in). -/
def patternNames : List String :=
  ["symptom_mention", "confidence_score", "recommendation", "emergency_keywords"]

/-- Whether the named pattern matches the response. -/
def patternMatches (r : String) : String → Bool
  | "symptom_mention" => matchesAlt symptomWords r
  | "confidence_score" => hasConfTag r
  | "recommendation" => hasRecTag r
  | "emergency_keywords" => matchesAlt emergencyWords r
  | _ => false

/-- The `missing_patterns` list accumulated by `validate_response`. -/
def missing_patterns (r : String) : List String :=
  patternNames.filter (fun n => !patternMatches r n)

/-- The dict built by `AIResponseValidator._process_response` (lines 59-66 of
response_validator.py). -/
structure Processed where
  main_response : String
  confidence_scores : List Nat
  recommendations : List String
  requires_emergency : Bool
  average_confidence : ℚ
  severity_scores : List Nat
deriving DecidableEq

/-- Message of the TypeError raised by `any(re.search(...))` at line 52 of
`_process_response`: a `re.Match` (or None) is not iterable, so `any` raises
before `has_emergency` is ever assigned.  Python renders the type name in
quotation marks; the quotation marks are elided here. -/
def matchNotIterableMsg : String := "re.Match object is not iterable"

/-- TypeError message as above, for the branch where the emergency regex did
not match and `re.search` returned None. -/
def noneNotIterableMsg : String := "NoneType object is not iterable"

/-- Model of `AIResponseValidator._process_response`.  Lines 44-49 bind local
extraction results, but line 52 evaluates `any(re.search(...))`, which raises
TypeError unconditionally (neither a Match object nor None is iterable), so
the function never returns; it is embedded as the error it raises. -/
def process_response (r : String) : Except String Processed :=
  Except.error (if matchesAlt emergencyWords r then matchNotIterableMsg else noneNotIterableMsg)

/-- Return triple of `AIResponseValidator.validate_response`:
`(is_valid, error_message, processed_response)`, with the empty dict of the
failure branches embedded as `none`. -/
structure ValidateOut where
  is_valid : Bool
  error_message : Option String
  processed : Option Processed
deriving DecidableEq

/-- Model of `AIResponseValidator.validate_response`.  The try/except
converts the TypeError escaping `_process_response` into the
`Validation error:` failure return. -/
def validate_response (r : String) : ValidateOut :=
  if r.length < 50 then
    ⟨false, some "Response too short", none⟩
  else if (missing_patterns r).isEmpty then
    match process_response r with
    | Except.ok p => ⟨true, none, some p⟩
    | Except.error e => ⟨false, some ("Validation error: " ++ e), none⟩
  else
    ⟨false, some ("Missing required elements: " ++ String.intercalate ", " (missing_patterns r)), none⟩

/-- The text appended by `enhance_response` when average confidence is below
70 (line 76 of response_validator.py). -/
def lowConfidenceDisclaimer : String :=
  "\n\nPlease note: This assessment is based on limited information. A medical professional can provide a more accurate evaluation."

/-- The banner prepended by `enhance_response` when the emergency flag is
set (line 80 of response_validator.py). -/
def emergencyBanner : String :=
  "⚠️ IMPORTANT: Based on your symptoms, immediate medical attention may be required.\n\n"

/-- The bulleted block appended by `enhance_response` when recommendations
were extracted (line 84 of response_validator.py). -/
def recommendationsBlock (recs : List String) : String :=
  "\n\nRecommendations:\n" ++ String.intercalate "\n" (recs.map (fun rec => "• " ++ rec))

/-- Model of `AIResponseValidator.enhance_response`. -/
def enhance_response (response : Processed) : String :=
  let enhanced := response.main_response
  let enhanced := if response.average_confidence < 70 then enhanced ++ lowConfidenceDisclaimer else enhanced
  let enhanced := if response.requires_emergency then emergencyBanner ++ enhanced else enhanced
  if !response.recommendations.isEmpty then
    enhanced ++ recommendationsBlock response.recommendations
  else enhanced

/-! ## SymptomAnalyzer (backend/app/utils/symptom_analyzer.py) -/

/-- One entry of the `symptoms` array inside an AI-produced analysis dict.
Every field is optional: the AI output is untrusted JSON, and the extraction
code reads each key with `.get`.  A field holding `none` models both a
missing key and a JSON null, which `.get` treats alike through its default
(`symptom.get('severity', 0) or 0` coalesces both to 0). -/
structure RawSymptom where
  name : Option String
  severity : Option ℚ
  duration : Option String
  pattern : Option String
deriving DecidableEq

/-- The analysis dict produced by `SymptomAnalyzer._parse_ai_response` (the
key set requested from the AI at lines 34-50 of symptom_analyzer.py). -/
structure AIAnalysis where
  symptoms : List RawSymptom
  progression : String
  risk_level : String
  urgency : String
  confidence_score : ℚ
deriving DecidableEq

/-- The fallback dict returned by `_parse_ai_response` when no JSON object is
found or decoding fails (lines 122-128 and 132-138 of symptom_analyzer.py). -/
def defaultAnalysis : AIAnalysis :=
  { symptoms := []
  , progression := "Unable to determine"
  , risk_level := "unknown"
  , urgency := "unknown"
  , confidence_score := 0 }

/-- Left brace character (written via its code point). -/
def lbraceChar : Char := Char.ofNat 123

/-- Right brace character (written via its code point). -/
def rbraceChar : Char := Char.ofNat 125

/-- Index of the first occurrence of `c` (model of `str.find`, with the
`-1` not-found result embedded as `none`). -/
def findCharIdxL (l : List Char) (c : Char) : Option Nat :=
  List.findIdx? (fun x => x == c) l

/-- Index of the last occurrence of `c` (model of `str.rfind`). -/
def rfindCharIdxL (l : List Char) (c : Char) : Option Nat :=
  match List.findIdx? (fun x => x == c) l.reverse with
  | none => none
  | some i => some (l.length - 1 - i)

/-- The substring from the first left brace to the last right brace,
when `start_idx >= 0 and end_idx > start_idx` (lines 114-118 of
symptom_analyzer.py); `none` when that guard fails. -/
def braceRegion (cleaned : String) : Option String :=
  match findCharIdxL cleaned.data lbraceChar, rfindCharIdxL cleaned.data rbraceChar with
  | some s, some e => if s < e then some ⟨(cleaned.data.drop s).take (e + 1 - s)⟩ else none
  | _, _ => none

/-- Model of `str.strip()`: remove leading and trailing whitespace. -/
def pyStrip (s : String) : String :=
  ⟨(skipWsL (skipWsL s.data).reverse).reverse⟩

/-- Model of `SymptomAnalyzer._parse_ai_response`, parameterized by the
behavior of the standard-library `json.loads` on the extracted slice
(`loads s = none` models `json.JSONDecodeError`, which the except clause
converts to the fallback dict). -/
def parse_ai_response (loads : String → Option AIAnalysis) (response : String) : AIAnalysis :=
  let cleaned := pyStrip response
  match braceRegion cleaned with
  | some json_str =>
    match loads json_str with
    | some analysis => analysis
    | none => defaultAnalysis
  | none => defaultAnalysis

/-- A consolidated symptom dict as built by `SymptomAnalyzer.analyze_symptoms`
and consumed by the scoring and recommendation functions.  `severity = none`
models a dict whose `severity` key holds Python None (which
`calculate_severity_score` skips); a dict lacking the key behaves as
`some 0` through `symptom.get('severity', 0)`. -/
structure SymDict where
  name : String
  severity : Option ℚ
  duration : String
  pattern : String
deriving DecidableEq

/-- One message of the conversation context.  `symptom_analysis = none`
models a message where `message.get('symptom_analysis')` is falsy. -/
structure Msg where
  type : String
  content : String
  symptom_analysis : Option AIAnalysis
deriving DecidableEq

/-- Model of `SymptomAnalyzer.analyze_symptoms` (lines 215-232 of
symptom_analyzer.py): collect every symptom entry of every message carrying
an analysis, normalizing each field with its `.get` default. -/
def analyze_symptoms (chat_history : List Msg) : List SymDict :=
  chat_history.flatMap (fun message =>
    match message.symptom_analysis with
    | none => []
    | some analysis =>
      analysis.symptoms.map (fun s =>
        { name := s.name.getD "Unknown"
        , severity := some (s.severity.getD 0)
        , duration := s.duration.getD "Not specified"
        , pattern := s.pattern.getD "Not specified" }))

/-- Model of `SymptomAnalyzer.calculate_severity_score` (lines 234-249):
the plain mean of the non-None severities, 0.0 for an empty list and when
every severity is None. -/
def calculate_severity_score (symptoms : List SymDict) : ℚ :=
  if symptoms.isEmpty then 0
  else
    let severities := symptoms.filterMap (fun s => s.severity)
    if severities.isEmpty then 0
    else severities.sum / (severities.length : ℚ)

/-- The threshold table inside `determine_risk_level` (lines 255-260),
factored over the severity score. -/
def riskLevelOfScore (severity_score : ℚ) : String :=
  if severity_score ≥ 8 then "high"
  else if severity_score ≥ 5 then "medium"
  else "low"

/-- Model of `SymptomAnalyzer.determine_risk_level`. -/
def determine_risk_level (symptoms : List SymDict) : String :=
  riskLevelOfScore (calculate_severity_score symptoms)

/-- Model of `SymptomAnalyzer.recommend_timeframe` (lines 262-271). -/
def recommend_timeframe (symptoms : List SymDict) : String :=
  let risk_level := determine_risk_level symptoms
  if risk_level == "high" then "immediate"
  else if risk_level == "medium" then "within 24 hours"
  else "within a week"

/-- Model of `SymptomAnalyzer.recommend_specialist` (lines 273-276): the
function body is the single statement returning the default, for every
input. -/
def recommend_specialist (_symptoms : List SymDict) : String :=
  "General Practitioner"

/-- The threshold table of the spec (section 4.1: score ≤ 3 low, ≤ 7 medium,
else high), stated from the spec text for comparison against
`riskLevelOfScore`. -/
def riskLevel_specTable (score : ℚ) : String :=
  if score ≤ 3 then "low"
  else if score ≤ 7 then "medium"
  else "high"

/-- Numeric order of the risk tiers, for stating monotonicity. -/
def riskRank (level : String) : Nat :=
  if level = "high" then 2
  else if level = "medium" then 1
  else 0

/-! ## ChatService (backend/app/services/chat_service.py) -/

/-- A character occurs in a string (model of Python `c in s` for a
single-character needle). -/
def containsChar (s : String) (c : Char) : Bool :=
  s.data.any (fun x => x == c)

/-- Model of the `question_count` computation at line 103 of
chat_service.py: the number of context messages of type `bot` whose content
contains a question mark. -/
def question_count (context : List Msg) : Nat :=
  context.countP (fun msg => msg.type == "bot" && containsChar msg.content '?')

/-- Severity score the prompt builder computes from the context (lines
104-105 of chat_service.py). -/
def severity_for_prompt (context : List Msg) : ℚ :=
  calculate_severity_score (analyze_symptoms context)

/-- The assessment-mode instruction interpolated into the prompt when the
transition condition holds (line 126 of chat_service.py). -/
def assessmentInstruction : String :=
  "[ASSESSMENT]\nSymptom Summary:\nLikely Condition:\nNext Steps:\nUrgency Level:"

/-- The question-mode instruction interpolated otherwise (line 127). -/
def questionInstruction : String :=
  "[QUESTION]\nAsk exactly ONE specific question about: (most concerning symptom or important missing information)"

/-- Model of the branch `if question_count >= 4 or severity_score >= 7` that
selects which instruction `_generate_ai_response` embeds in the prompt
(the same condition is evaluated again at line 136 for the closing
sentence). -/
def chooseInstruction (context : List Msg) : String :=
  if question_count context ≥ 4 ∨ severity_for_prompt context ≥ 7 then
    assessmentInstruction
  else questionInstruction

/-- The validation dict consumed by `ChatService._process_response`
(shape requested from the AI in `validate_medical_response`). -/
structure ValidationDict where
  emergency_level : String
  safety_concerns : List String
  suggested_improvements : List String
deriving DecidableEq

/-- The treatment-recommendations dict consumed by
`ChatService._process_response`. -/
structure TreatmentDict where
  medications : List String
  homeRemedies : List String
deriving DecidableEq

/-- The payload dict built by `ChatService._process_response` (lines 149-163
of chat_service.py), with the nested `recommendations` dict flattened into
`rec_`-named fields and the wall-clock `timestamp` field omitted. -/
structure ProcessedMsg where
  response : String
  symptoms : List RawSymptom
  risk_level : String
  urgency : String
  requires_emergency : Bool
  rec_medications : List String
  rec_homeRemedies : List String
  rec_urgency : String
  rec_safety_concerns : List String
  rec_suggested_improvements : List String
deriving DecidableEq

/-- The banner prepended at line 167 of chat_service.py. -/
def urgentBanner : String :=
  "⚠️ URGENT: This requires immediate medical attention!\n\n"

/-- Model of `ChatService._process_response`. -/
def chat_process_response (response : String) (symptom_analysis : AIAnalysis)
    (validation : ValidationDict) (treatment : TreatmentDict) : ProcessedMsg :=
  let requires_emergency := validation.emergency_level == "high"
  { response := if requires_emergency then urgentBanner ++ response else response
  , symptoms := symptom_analysis.symptoms
  , risk_level := symptom_analysis.risk_level
  , urgency := symptom_analysis.urgency
  , requires_emergency := requires_emergency
  , rec_medications := treatment.medications
  , rec_homeRemedies := treatment.homeRemedies
  , rec_urgency := symptom_analysis.urgency
  , rec_safety_concerns := validation.safety_concerns
  , rec_suggested_improvements := validation.suggested_improvements }

/-! ## Consultation helpers (backend/app/utils/consultation_helpers.py) -/

/-- Keep the first occurrence of each string, preserving discovery order
(model of `list(dict.fromkeys(...))`); `seen` is the set of strings already
emitted. -/
def dedupGo (seen : List String) : List String → List String
  | [] => []
  | x :: xs => if seen.contains x then dedupGo seen xs else x :: dedupGo (x :: seen) xs

/-- De-duplicate preserving order. -/
def dedupKeepFirst (l : List String) : List String :=
  dedupGo [] l

/-- The `symptom_meds` table, in dict insertion order. -/
def symptom_meds : List (String × List String) :=
  [ ("headache", ["Acetaminophen", "Ibuprofen"])
  , ("fever", ["Acetaminophen", "Ibuprofen"])
  , ("cough", ["Dextromethorphan", "Expectorant"])
  , ("allergies", ["Antihistamine", "Nasal Decongestant"])
  , ("pain", ["Pain Reliever", "Anti-inflammatory medication"])
  , ("nausea", ["Anti-nausea medication"])
  , ("indigestion", ["Antacid"])
  , ("anxiety", ["Consult doctor for appropriate medication"])
  , ("insomnia", ["Consult doctor for sleep medication"]) ]

/-- Rows of a keyword table whose key occurs in the lowercased symptom name
(model of `if key in symptom['name'].lower(): recommendations.extend(...)`). -/
def tableHits (table : List (String × List String)) (s : SymDict) : List String :=
  table.flatMap (fun kv => if containsSubL (lowerChars s.name) kv.1.data then kv.2 else [])

/-- Model of `generate_medication_recommendations`. -/
def generate_medication_recommendations (symptoms : List SymDict) : List String :=
  dedupKeepFirst (symptoms.flatMap (tableHits symptom_meds))

/-- The `symptom_remedies` table. -/
def symptom_remedies : List (String × List String) :=
  [ ("headache", ["Rest in a quiet, dark room", "Apply cold or warm compress", "Stay hydrated"])
  , ("fever", ["Rest and get plenty of sleep", "Stay hydrated", "Use a light blanket if chills occur"])
  , ("cough", ["Drink warm honey and lemon tea", "Use a humidifier", "Stay hydrated"])
  , ("sore throat", ["Gargle with warm salt water", "Drink warm liquids", "Use throat lozenges"])
  , ("nausea", ["Eat small, frequent meals", "Avoid strong odors", "Try ginger tea"])
  , ("stress", ["Practice deep breathing exercises", "Try meditation or yoga", "Get regular exercise"]) ]

/-- Model of `generate_home_remedies`. -/
def generate_home_remedies (symptoms : List SymDict) : List String :=
  dedupKeepFirst (symptoms.flatMap (tableHits symptom_remedies))

/-- The three baseline precautions every call starts from. -/
def base_precautions : List String :=
  [ "Monitor your symptoms regularly"
  , "Keep track of any changes in symptom intensity"
  , "Maintain good hygiene practices" ]

/-- Extra precautions appended when the severity score exceeds 7. -/
def urgent_precautions : List String :=
  [ "Seek immediate medical attention if symptoms worsen"
  , "Avoid strenuous activities"
  , "Have someone stay with you or check on you regularly" ]

/-- Extra precautions appended when the severity score exceeds 4 (but not
7). -/
def moderate_precautions : List String :=
  [ "Limit daily activities as needed"
  , "Get adequate rest"
  , "Contact healthcare provider if symptoms persist" ]

/-- The `symptom_precautions` table. -/
def symptom_precautions : List (String × List String) :=
  [ ("fever", ["Monitor temperature regularly", "Stay hydrated", "Avoid exposure to extreme temperatures"])
  , ("breathing", ["Avoid smoke and other irritants", "Keep head elevated while resting", "Use prescribed inhaler if available"])
  , ("pain", ["Avoid movements that aggravate the pain", "Apply ice/heat as recommended", "Take prescribed medication as directed"]) ]

/-- Model of `generate_precautions`. -/
def generate_precautions (symptoms : List SymDict) : List String :=
  let severity_score := calculate_severity_score symptoms
  let tiered :=
    if severity_score > 7 then urgent_precautions
    else if severity_score > 4 then moderate_precautions
    else []
  dedupKeepFirst (base_precautions ++ tiered ++ symptoms.flatMap (tableHits symptom_precautions))

/-! ## ConnectionManager (backend/app/main.py, first class definition)

The file defines `ConnectionManager` twice; the class carrying the retry
logic (lines 54-205) is shadowed by a later minimal definition (lines
342-355) before `manager` is rebound, so the model below embeds the
retry-bearing class the claims cite, per session.  Observable side effects
are recorded as events. -/

/-- Value of `self.max_reconnect_attempts`. -/
def maxReconnectAttempts : Nat := 3

/-- Per-session slice of the manager state: whether the session id is a key
of `active_connections`, and the value held for it in `reconnect_attempts`
(`none` when the id is not a key). -/
structure CMState where
  connected : Bool
  reconnectAttempts : Option Nat
deriving DecidableEq

/-- Observable side effects of the error handler. -/
inductive CMEvent where
  | contextSnapshot
  | slept (units : Nat)
  | savedState
deriving DecidableEq

/-- Model of `ConnectionManager.disconnect` (lines 81-90): the retry-counter
deletion is nested inside the `if consultation_id in self.active_connections`
guard, so a disconnected session keeps any counter it still has. -/
def cmDisconnect (s : CMState) : CMState :=
  if s.connected then { connected := false, reconnectAttempts := none } else s

/-- Model of `ConnectionManager.handle_connection_error` (lines 115-144).
When the session has no retry counter the guarded body is skipped entirely.
Otherwise the counter is incremented; in the non-terminal branch the context
is snapshotted, the session disconnected, and the sleep then reads
`self.reconnect_attempts[consultation_id]` — a key `disconnect` just deleted
when the session was connected — so a KeyError propagates to the method-wide
except clause, which calls `disconnect` once more and swallows the error
(no sleep happens on that path).  In the terminal branch the session is
disconnected and the conversation state saved. -/
def handle_connection_error (s : CMState) : CMState × List CMEvent :=
  match s.reconnectAttempts with
  | none => (s, [])
  | some n =>
    let attempts := n + 1
    let s1 : CMState := { connected := s.connected, reconnectAttempts := some attempts }
    if attempts ≤ maxReconnectAttempts then
      let s2 := cmDisconnect s1
      match s2.reconnectAttempts with
      | some m => (s2, [CMEvent.contextSnapshot, CMEvent.slept (2 ^ m)])
      | none => (cmDisconnect s2, [CMEvent.contextSnapshot])
    else
      (cmDisconnect s1, [CMEvent.savedState])

/-- One failing `send_message` call (lines 92-113): the body only runs when
the session id is a key of `active_connections`, and a send exception routes
to `handle_connection_error`. -/
def send_failure (s : CMState) : CMState × List CMEvent :=
  if s.connected then handle_connection_error s else (s, [])

/-- One successful `send_message` call: resets the retry counter to 0
(line 109). -/
def send_success (s : CMState) : CMState :=
  if s.connected then { connected := s.connected, reconnectAttempts := some 0 } else s

/-- Run `n` consecutive failing sends, accumulating events in order. -/
def run_send_failures : Nat → CMState → CMState × List CMEvent
  | 0, s => (s, [])
  | n + 1, s =>
    let r1 := send_failure s
    let r2 := run_send_failures n r1.1
    (r2.1, r1.2 ++ r2.2)

/-! ## Concrete inputs used by the theorems below -/

/-- A completion matching the symptom, confidence and recommendation
patterns but containing no emergency vocabulary. -/
def exNoEmergency : String :=
  "Your symptom suggests a mild condition. [Confidence: 85%] [Recommendation: please rest at home]"

/-- A completion with symptom and emergency vocabulary but neither tag. -/
def exMissingTags : String :=
  "The symptom pain is severe and the condition is urgent today, please seek care soon friend."

/-- A completion matching all four pattern classes. -/
def exAllPatterns : String :=
  "The symptom causes severe pain today. [Confidence: 80%] [Recommendation: seek care now]"

/-- A single symptom dict with severity 4. -/
def exFatigue4 : List SymDict :=
  [⟨"fatigue", some 4, "Not specified", "Not specified"⟩]

/-- The symptom list of the spec scenario: one headache of severity 8. -/
def exHeadache8 : List SymDict :=
  [⟨"headache", some 8, "Not specified", "Not specified"⟩]

/-- A symptom dict whose raw severity 20 lies outside the documented 0..10
range. -/
def exDizzy20 : List SymDict :=
  [⟨"dizziness", some 20, "Not specified", "Not specified"⟩]

/-- A chat history whose one message carries an analysis holding the
out-of-range severity 20. -/
def exDizzy20History : List Msg :=
  [⟨"user", "I feel dizzy", some ⟨[⟨some "dizziness", some 20, none, none⟩], "worsening", "high", "immediate", 90⟩⟩]

/-- Four assistant turns, each containing a question mark, and no symptom
data (so the severity score is 0). -/
def ctxFourQuestions : List Msg :=
  List.replicate 4 ⟨"bot", "Is it bad?", none⟩

/-! ## Helper lemmas -/

/-- Value of the risk rank on the three tier strings. -/
theorem riskRank_high : riskRank "high" = 2 := rfl

/-- Value of the risk rank on the medium tier. -/
theorem riskRank_medium : riskRank "medium" = 1 := rfl

/-- Value of the risk rank on the low tier. -/
theorem riskRank_low : riskRank "low" = 0 := rfl

/-- De-duplication of a list with an empty seen-set keeps the head, so the
result of `dedupKeepFirst` on a cons has at least one element. -/
theorem dedupGo_cons_nil_len (x : String) (xs : List String) :
    1 ≤ (dedupGo [] (x :: xs)).length := by
  simp [dedupGo]

/-! ## Claim theorems -/

/-- C1 counterexample.  The claim holds that emergency vocabulary is checked
but not required, so a long-enough completion matching the symptom,
confidence-tag and recommendation classes should be accepted.  The concrete
completion below matches those three classes and exceeds 50 characters, yet
`validate_response` rejects it, naming `emergency_keywords` as a missing
required element: all four pattern classes are mandatory. -/
theorem C1_counterexample :
    50 ≤ exNoEmergency.length ∧
    matchesAlt symptomWords exNoEmergency = true ∧
    hasConfTag exNoEmergency = true ∧
    hasRecTag exNoEmergency = true ∧
    validate_response exNoEmergency =
      ⟨false, some "Missing required elements: emergency_keywords", none⟩ := by
  decide

/-- C1 amended.  For every completion of length at least 50, the validator
never accepts: if any of the four pattern classes (emergency vocabulary
included) fails to match, the result is invalid with an error message
enumerating exactly the missing class names in check order; if all four
match, the structuring step raises a TypeError that the validator catches,
and the result is invalid with a `Validation error:` message. -/
theorem C1_all_patterns_mandatory (r : String) (hlen : 50 ≤ r.length) :
    (validate_response r).is_valid = false ∧
    (validate_response r).error_message = some (
      if (missing_patterns r).isEmpty then
        "Validation error: " ++
          (if matchesAlt emergencyWords r then matchNotIterableMsg else noneNotIterableMsg)
      else
        "Missing required elements: " ++ String.intercalate ", " (missing_patterns r)) := by
  have hnot : ¬ r.length < 50 := by omega
  by_cases he : (missing_patterns r).isEmpty
  · refine ⟨?_, ?_⟩ <;>
      simp [validate_response, process_response, hnot, he]
  · refine ⟨?_, ?_⟩ <;>
      simp [validate_response, process_response, hnot, he]

/-- C1 witness: the scenario completion missing the confidence tag and the
recommendation tag is rejected with both names listed. -/
theorem C1_witness :
    (validate_response exMissingTags).is_valid = false ∧
    (validate_response exMissingTags).error_message =
      some "Missing required elements: confidence_score, recommendation" := by
  have h := C1_all_patterns_mandatory exMissingTags (by decide)
  refine ⟨h.1, ?_⟩
  rw [h.2]
  decide

/-- C2 code bug.  Starting from a connected session whose retry counter was
initialized to 0 by a successful send, four consecutive send failures do
NOT reach the terminal branch: the first failure increments the counter,
snapshots context and tears the channel down, but teardown also deletes the
counter, so the backoff sleep reads a deleted key, raises KeyError, and is
swallowed — no wait ever happens; the remaining failures are no-ops on the
now-unregistered session, and the terminal flush-to-durable-storage branch
is never taken (the event trace contains zero sleep events and zero
save-state events). -/
theorem C2_backoff_dead :
    run_send_failures 1 ⟨true, some 0⟩ = (⟨false, none⟩, [CMEvent.contextSnapshot]) ∧
    run_send_failures 4 ⟨true, some 0⟩ = (⟨false, none⟩, [CMEvent.contextSnapshot]) ∧
    ((run_send_failures 4 ⟨true, some 0⟩).2.countP
      (fun e => match e with | CMEvent.slept _ => true | _ => false)) = 0 ∧
    ((run_send_failures 4 ⟨true, some 0⟩).2.countP
      (fun e => match e with | CMEvent.savedState => true | _ => false)) = 0 := by
  refine ⟨by decide, by decide, by decide, by decide⟩

/-- C3 counterexample.  The claim's threshold table sends severity 4 to the
medium tier (3 < 4 ≤ 7), but the code classifies the score 4 as low: its
thresholds are 5 and 8, not 3 and 7. -/
theorem C3_counterexample :
    calculate_severity_score exFatigue4 = 4 ∧
    determine_risk_level exFatigue4 = "low" ∧
    riskLevel_specTable 4 = "medium" ∧
    ("low" : String) ≠ "medium" := by
  have h : calculate_severity_score exFatigue4 = 4 := by
    simp [calculate_severity_score, exFatigue4, List.filterMap_cons]
  refine ⟨h, ?_, ?_, by decide⟩
  · rw [determine_risk_level, h, riskLevelOfScore]
    norm_num
  · rw [riskLevel_specTable]
    norm_num

/-- C3 amended.  The risk level follows a three-band threshold table on the
aggregate severity score with boundaries 5 and 8: score < 5 maps to low,
5 ≤ score < 8 to medium, 8 ≤ score to high; the risk level is monotonic
non-decreasing in the score, and `determine_risk_level` is exactly this
table applied to `calculate_severity_score`. -/
theorem C3_bands_and_monotone (score t : ℚ) :
    (score < 5 → riskLevelOfScore score = "low") ∧
    (5 ≤ score → score < 8 → riskLevelOfScore score = "medium") ∧
    (8 ≤ score → riskLevelOfScore score = "high") ∧
    (score ≤ t → riskRank (riskLevelOfScore score) ≤ riskRank (riskLevelOfScore t)) ∧
    (∀ symptoms : List SymDict,
      determine_risk_level symptoms = riskLevelOfScore (calculate_severity_score symptoms)) := by
  refine ⟨?_, ?_, ?_, ?_, fun _ => rfl⟩
  · intro h
    rw [riskLevelOfScore, if_neg (by linarith), if_neg (by linarith)]
  · intro h1 h2
    rw [riskLevelOfScore, if_neg (by linarith), if_pos (by linarith)]
  · intro h
    rw [riskLevelOfScore, if_pos (by linarith)]
  · intro hst
    by_cases h8s : (8:ℚ) ≤ score
    · rw [riskLevelOfScore, if_pos h8s, riskLevelOfScore, if_pos (by linarith)]
    · by_cases h5s : (5:ℚ) ≤ score
      · rw [riskLevelOfScore, if_neg h8s, if_pos h5s, riskLevelOfScore]
        by_cases h8t : (8:ℚ) ≤ t
        · rw [if_pos h8t, riskRank_medium, riskRank_high]
          omega
        · rw [if_neg h8t, if_pos (by linarith), riskRank_medium]
      · rw [riskLevelOfScore, if_neg h8s, if_neg h5s, riskRank_low]
        omega

/-- C3 witness: the amended bands and monotonicity at concrete scores. -/
theorem C3_witness :
    riskLevelOfScore 4 = "low" ∧
    riskLevelOfScore 6 = "medium" ∧
    riskLevelOfScore 9 = "high" ∧
    riskRank (riskLevelOfScore 4) ≤ riskRank (riskLevelOfScore 6) := by
  refine ⟨(C3_bands_and_monotone 4 6).1 (by norm_num),
          (C3_bands_and_monotone 6 9).2.1 (by norm_num) (by norm_num),
          (C3_bands_and_monotone 9 9).2.2.1 (by norm_num),
          (C3_bands_and_monotone 4 6).2.2.2.1 (by norm_num)⟩

/-- C4 counterexample.  Extraction passes the raw severity 20 through
unchanged and aggregation averages it without clamping, so the aggregate
severity score is 20, outside the documented 0..10 range. -/
theorem C4_counterexample :
    analyze_symptoms exDizzy20History = exDizzy20 ∧
    calculate_severity_score exDizzy20 = 20 ∧
    ¬ calculate_severity_score exDizzy20 ≤ 10 := by
  have h : calculate_severity_score exDizzy20 = 20 := by
    simp [calculate_severity_score, exDizzy20, List.filterMap_cons]
  refine ⟨?_, h, ?_⟩
  · simp [analyze_symptoms, exDizzy20History, exDizzy20]
  · rw [h]
    norm_num

/-- C4 amended.  No clamping is performed anywhere: the aggregate severity
score is the plain mean of the severities present (0 when none are), so it
lies in [0,10] exactly when the raw inputs do — for raw severities inside
[0,10] the score stays inside [0,10], while out-of-range raw values
propagate into the result unclamped. -/
theorem C4_mean_bounds (symptoms : List SymDict)
    (hrange : ∀ s ∈ symptoms, ∀ v, s.severity = some v → 0 ≤ v ∧ v ≤ 10) :
    0 ≤ calculate_severity_score symptoms ∧ calculate_severity_score symptoms ≤ 10 := by
  by_cases h1 : symptoms.isEmpty
  · norm_num [calculate_severity_score, h1]
  · by_cases h2 : (symptoms.filterMap (fun s => s.severity)).isEmpty
    · norm_num [calculate_severity_score, h1, h2]
    · have hval : calculate_severity_score symptoms =
          (symptoms.filterMap (fun s => s.severity)).sum /
            ((symptoms.filterMap (fun s => s.severity)).length : ℚ) := by
        simp [calculate_severity_score, h1, h2]
      have hmem : ∀ x ∈ symptoms.filterMap (fun s => s.severity), 0 ≤ x ∧ x ≤ 10 := by
        intro x hx
        obtain ⟨a, ha, hfa⟩ := List.mem_filterMap.mp hx
        exact hrange a ha x hfa
      have hlen : 0 < (symptoms.filterMap (fun s => s.severity)).length := by
        rcases hl : symptoms.filterMap (fun s => s.severity) with _ | ⟨y, ys⟩
        · rw [hl] at h2
          simp at h2
        · rw [hl]
          simp
      have hlenQ : (0:ℚ) < ((symptoms.filterMap (fun s => s.severity)).length : ℚ) := by
        exact_mod_cast hlen
      rw [hval]
      constructor
      · exact div_nonneg (List.sum_nonneg (fun x hx => (hmem x hx).1)) (le_of_lt hlenQ)
      · rw [div_le_iff₀ hlenQ]
        calc (symptoms.filterMap (fun s => s.severity)).sum
            ≤ (symptoms.filterMap (fun s => s.severity)).length • (10:ℚ) :=
              List.sum_le_card_nsmul _ _ (fun x hx => (hmem x hx).2)
          _ = 10 * ((symptoms.filterMap (fun s => s.severity)).length : ℚ) := by
              rw [nsmul_eq_mul]
              ring

/-- C4 witness: the amended bound at the in-range severity-8 headache. -/
theorem C4_witness :
    0 ≤ calculate_severity_score exHeadache8 ∧ calculate_severity_score exHeadache8 ≤ 10 := by
  apply C4_mean_bounds
  intro s hs v hv
  rw [exHeadache8] at hs
  simp only [List.mem_singleton] at hs
  rw [hs] at hv
  simp only [Option.some.injEq] at hv
  rw [← hv]
  norm_num

/-- C5.  The prompt builder selects the final-assessment instruction exactly
when the question count recomputed from the context (assistant turns whose
content contains a question mark) is at least 4, or the aggregate severity
score derived from the context is at least 7; in particular a question
count of at least 4 forces the assessment instruction regardless of
severity. -/
theorem C5_assessing_iff (context : List Msg) :
    (chooseInstruction context = assessmentInstruction ↔
      4 ≤ question_count context ∨ 7 ≤ severity_for_prompt context) ∧
    (4 ≤ question_count context → chooseInstruction context = assessmentInstruction) := by
  have hne : questionInstruction ≠ assessmentInstruction := by decide
  constructor
  · rw [chooseInstruction]
    by_cases h : question_count context ≥ 4 ∨ severity_for_prompt context ≥ 7
    · rw [if_pos h]
      simp [h]
    · rw [if_neg h]
      simp [h, hne]
  · intro h
    rw [chooseInstruction, if_pos (Or.inl h)]

/-- C5 witness: after four assistant turns each containing a question mark,
the next invocation is in assessment mode although the severity is 0. -/
theorem C5_witness : chooseInstruction ctxFourQuestions = assessmentInstruction :=
  (C5_assessing_iff ctxFourQuestions).2 (by decide)

/-- C6 counterexample.  On the scenario input, `recommend_specialist`
returns the default for every input — the keyword-to-specialist vote table
does not exist in the code — so the headache symptom does not yield
Neurologist. -/
theorem C6_counterexample :
    recommend_specialist exHeadache8 = "General Practitioner" ∧
    recommend_specialist exHeadache8 ≠ "Neurologist" := by
  refine ⟨rfl, by decide⟩

/-- C6 amended.  On the severity-8 headache the risk level is high and the
timeframe is the immediate tier, as claimed; but the recommended specialist
is the constant General Practitioner for every symptom list, headaches
included. -/
theorem C6_scenario_amended :
    determine_risk_level exHeadache8 = "high" ∧
    recommend_timeframe exHeadache8 = "immediate" ∧
    ∀ symptoms : List SymDict, recommend_specialist symptoms = "General Practitioner" := by
  have h : calculate_severity_score exHeadache8 = 8 := by
    simp [calculate_severity_score, exHeadache8, List.filterMap_cons]
  have hr : determine_risk_level exHeadache8 = "high" := by
    rw [determine_risk_level, h, riskLevelOfScore]
    norm_num
  refine ⟨hr, ?_, fun _ => rfl⟩
  simp [recommend_timeframe, hr]

/-- C7 counterexample.  On the empty symptom list the medication and home
remedy generators return the empty list, not non-empty default guidance. -/
theorem C7_counterexample :
    generate_medication_recommendations [] = [] ∧
    generate_home_remedies [] = [] := by
  exact ⟨rfl, rfl⟩

/-- C7 amended.  All three generators are total, but only the precautions
generator has non-empty defaults: on the empty symptom list the medication
and home-remedy generators return the empty list, while the precautions
generator returns exactly its three baseline strings — and it returns a
list with at least one element on every input. -/
theorem C7_empty_list_behavior :
    generate_medication_recommendations [] = [] ∧
    generate_home_remedies [] = [] ∧
    generate_precautions [] = base_precautions ∧
    ∀ symptoms : List SymDict, 1 ≤ (generate_precautions symptoms).length := by
  refine ⟨rfl, rfl, by decide, ?_⟩
  intro symptoms
  have h : generate_precautions symptoms = dedupGo []
      ("Monitor your symptoms regularly" ::
        ("Keep track of any changes in symptom intensity" ::
          ("Maintain good hygiene practices" ::
            ((if calculate_severity_score symptoms > 7 then urgent_precautions
              else if calculate_severity_score symptoms > 4 then moderate_precautions
              else []) ++
              symptoms.flatMap (tableHits symptom_precautions))))) := rfl
  rw [h]
  exact dedupGo_cons_nil_len _ _

/-- C8.  The display text produced by `enhance_response` is the emergency
banner (exactly when the emergency flag is set), then the body, then the
low-confidence disclaimer (exactly when the average extracted confidence is
below 70), then the bulleted recommendations block (exactly when at least
one recommendation was extracted), in that fixed order, each augmentation
independent of the others. -/
theorem C8_enhance_order (p : Processed) :
    enhance_response p =
      (if p.requires_emergency then emergencyBanner else "") ++
      p.main_response ++
      (if p.average_confidence < 70 then lowConfidenceDisclaimer else "") ++
      (if p.recommendations.isEmpty then "" else recommendationsBlock p.recommendations) := by
  rw [enhance_response]
  by_cases h1 : p.average_confidence < 70 <;>
    by_cases h2 : p.requires_emergency <;>
      by_cases h3 : p.recommendations.isEmpty <;>
        simp [h1, h2, h3, String.append_assoc, String.append_empty, String.empty_append]

/-- C9 code bug.  The claim reasons that a validated response always
carries the emergency flag and that the emergency re-check in the
structuring step cannot raise.  In fact that re-check wraps `re.search` in
`any(...)`, which raises TypeError on a Match object exactly as on None, so
the success path is unreachable: on a completion matching all four pattern
classes the validator returns invalid with a `Validation error:` message,
and no response string whatsoever validates. -/
theorem C9_success_path_unreachable :
    50 ≤ exAllPatterns.length ∧
    missing_patterns exAllPatterns = [] ∧
    validate_response exAllPatterns =
      ⟨false, some "Validation error: re.Match object is not iterable", none⟩ ∧
    ∀ r : String, (validate_response r).is_valid = false := by
  refine ⟨by decide, by decide, by decide, ?_⟩
  intro r
  rw [validate_response]
  by_cases h1 : r.length < 50
  · rw [if_pos h1]
  · rw [if_neg h1]
    by_cases h2 : (missing_patterns r).isEmpty
    · rw [if_pos h2]
      simp [process_response]
    · rw [if_neg h2]

/-- C10.  The JSON-extraction parser is total: when the stripped completion
has no brace-delimited region, or decoding the region fails, it returns the
fixed default structure — empty symptoms, confidence 0, and risk level and
urgency both the string `unknown`, a value outside both documented
enumerations — and the chat pipeline propagates exactly these `unknown`
strings into the response payload fields. -/
theorem C10_parser_defaults (loads : String → Option AIAnalysis) (r resp : String)
    (v : ValidationDict) (t : TreatmentDict)
    (hfail : braceRegion (pyStrip r) = none ∨
      ∃ js, braceRegion (pyStrip r) = some js ∧ loads js = none) :
    parse_ai_response loads r = defaultAnalysis ∧
    defaultAnalysis.symptoms = [] ∧
    defaultAnalysis.confidence_score = 0 ∧
    defaultAnalysis.risk_level = "unknown" ∧
    defaultAnalysis.urgency = "unknown" ∧
    ((["low", "medium", "high"] : List String).contains "unknown") = false ∧
    ((["routine", "prompt", "immediate"] : List String).contains "unknown") = false ∧
    (chat_process_response resp defaultAnalysis v t).risk_level = "unknown" ∧
    (chat_process_response resp defaultAnalysis v t).urgency = "unknown" := by
  refine ⟨?_, rfl, rfl, rfl, rfl, by decide, by decide, rfl, rfl⟩
  rcases hfail with h | ⟨js, hjs, hl⟩
  · simp [parse_ai_response, h]
  · simp [parse_ai_response, hjs, hl]

/-- C10 witness: the defaults at a concrete completion with no JSON and an
always-failing decoder, and the propagated payload field. -/
theorem C10_witness :
    parse_ai_response (fun _ => none) "The analysis could not be structured" = defaultAnalysis ∧
    (chat_process_response "ok" defaultAnalysis ⟨"none", [], []⟩ ⟨[], []⟩).risk_level = "unknown" := by
  have h := C10_parser_defaults (fun _ => none) "The analysis could not be structured" "ok"
    ⟨"none", [], []⟩ ⟨[], []⟩ (Or.inl (by decide))
  exact ⟨h.1, h.2.2.2.2.2.2.2.1⟩

end Arogo
